import Mathlib

/-!
Verification development for the HalalBot retrieval and ranking engine.

Shallow embedding of the Python sources:
- `src/core/feedback_utils.py`   (feedback ledger, penalties, adjusted scores)
- `src/core/query_blocking.py`   (denylist and heuristic admission rules)
- `src/services/search_service.py` (cosine scorer, candidate fetch, ranking)
- `src/utils/file_operations.py` (denylist loading semantics)

Modelling conventions: Python floats are embedded as exact rationals where the
code only does field arithmetic and comparisons (`feedback_utils` constants),
and as real numbers where a square root occurs (the cosine scorer and the
search pipeline built on it); Python ints are `Nat`/`Int`; `None` and the
empty string are collapsed where the code treats them identically (both are
falsy in every branch that looks at them); wall-clock timestamps are omitted
from records; I/O (database, files, audit log) is modelled as explicit state
passed in and returned.
-/

set_option maxRecDepth 8000

namespace HalalBot

/-! ## feedback_utils.py: configuration constants -/

/-- `PENALTY_PER_DOWNVOTE = 0.02` from feedback_utils.py. -/
def PENALTY_PER_DOWNVOTE : ℚ := 1 / 50

/-- `MAX_PENALTY = 0.3` from feedback_utils.py. -/
def MAX_PENALTY : ℚ := 3 / 10

/-- `BACKUP_ENABLED = True` from feedback_utils.py. -/
def BACKUP_ENABLED : Bool := true

/-! ## Python string primitives

The Python string methods used by the code (`str.strip`, `str.lower`,
`str.split`) are modelled directly on character lists.  `Char.isWhitespace`
models the whitespace class and `Char.toLower` / `Char.isUpper` model the
case functions; they agree with Python on the ASCII range, which is where
every concrete input below lives. -/

/-- Python `str.strip()`: remove leading and trailing whitespace. -/
def py_strip (s : String) : String :=
  ⟨((s.data.dropWhile Char.isWhitespace).reverse.dropWhile Char.isWhitespace).reverse⟩

/-- Python `str.lower()`. -/
def py_lower (s : String) : String :=
  ⟨s.data.map Char.toLower⟩

/-- Splitting a character list at every character satisfying `p`,
keeping empty chunks. -/
def split_chars (p : Char → Bool) : List Char → List (List Char)
  | [] => [[]]
  | c :: rest =>
      let r := split_chars p rest
      if p c then [] :: r
      else
        match r with
        | [] => [[c]]
        | w :: ws => (c :: w) :: ws

/-- Python `str.split()` with no argument: split on whitespace runs and
drop the empty pieces (which also drops leading/trailing whitespace). -/
def py_split (s : String) : List String :=
  ((split_chars Char.isWhitespace s.data).map fun l => (⟨l⟩ : String)).filter fun w => w ≠ ""

/-! ## feedback_utils.py: hashing -/

/-- The normalisation step of `hash_text`:
`" ".join(text.strip().split())` (whitespace runs collapsed to single
spaces, ends stripped — `split()` with no argument already ignores leading
and trailing whitespace). -/
def normalize_text (s : String) : String :=
  String.intercalate " " (py_split s)

/-- `hash_text` from feedback_utils.py: returns `""` for empty input,
otherwise the SHA-256 hex digest of the normalised text.  The digest itself
is a cryptographic primitive; it is modelled as an injective tagged encoding
of the normalised text.  The only properties of the digest the rest of the
code relies on are determinism, being a function of the normalised text, and
being a non-empty string for non-empty input, all of which this encoding has
(a 64-character hex digest can never be `""`, and `"sha256:" ++ t` can never
be `""` either). -/
def hash_text (text : String) : String :=
  if text = "" then "" else "sha256:" ++ normalize_text text

/-! ## feedback_utils.py: persistent feedback state -/

/-- Vote counters for one content-hash, as stored in
`feedback_adjustments.json` (`thumbs_up` / `thumbs_down` keys) and as
aggregated from the `feedback` table. -/
structure VoteCounts where
  thumbs_up : ℕ
  thumbs_down : ℕ
deriving DecidableEq

/-- One row of the `feedback` database table (timestamp omitted). -/
structure FeedbackRecord where
  user_id : Option ℕ
  document_id : Option ℕ
  query : String
  feedback_type : String
deriving DecidableEq

/-- The PostgreSQL side of the feedback system: availability flag
(`DATABASE_AVAILABLE`), the `users` table as a lookup from email to id, the
`documents` table as a lookup from content-hash to document id (the hash
join performed by `get_document_id`), and the `feedback` table rows. -/
structure FeedbackDB where
  available : Bool
  users : String → Option ℕ
  doc_id_of_hash : String → Option ℕ
  records : List FeedbackRecord

/-- One line of the backup file `feedback_log.jsonl` (timestamp omitted). -/
structure LogEntry where
  query : String
  text_hash : String
  vote : String
  user : String
deriving DecidableEq

/-- The whole persistent feedback state: database, backup JSONL log, and the
`feedback_adjustments.json` map (modelled as an association list, which is
what a JSON object is). -/
structure FeedbackState where
  db : FeedbackDB
  json_log : List LogEntry
  adjustments : List (String × VoteCounts)

/-- `get_feedback_stats_from_database`: zero counts when the database is
unavailable or no document matches the hash (`get_document_id` returns
`None` for an empty hash), otherwise the per-type counts of the feedback
rows joined on the document id. -/
def get_feedback_stats_from_database (db : FeedbackDB) (text_hash : String) : VoteCounts :=
  if db.available = false then ⟨0, 0⟩
  else
    match (if text_hash = "" then none else db.doc_id_of_hash text_hash) with
    | none => ⟨0, 0⟩
    | some did =>
        ⟨(db.records.filter fun r => r.document_id == some did && r.feedback_type == "up").length,
         (db.records.filter fun r => r.document_id == some did && r.feedback_type == "down").length⟩

/-- `get_vote_summary`: `None` for an empty hash; database stats when the
database is available and reports a non-zero count; otherwise the entry of
`feedback_adjustments.json` for this hash (possibly absent). -/
def get_vote_summary (st : FeedbackState) (text_hash : String) : Option VoteCounts :=
  if text_hash = "" then none
  else
    let stats := get_feedback_stats_from_database st.db text_hash
    if st.db.available && (0 < stats.thumbs_up || 0 < stats.thumbs_down) then some stats
    else st.adjustments.lookup text_hash

/-- `get_score_penalty`: `0.0` for an empty hash or when no votes are
recorded, otherwise `min(PENALTY_PER_DOWNVOTE * downvotes, MAX_PENALTY)`. -/
def get_score_penalty (st : FeedbackState) (text_hash : String) : ℚ :=
  if text_hash = "" then 0
  else
    match get_vote_summary st text_hash with
    | none => 0
    | some votes => min (PENALTY_PER_DOWNVOTE * votes.thumbs_down) MAX_PENALTY

/-- `get_adjusted_score`: the base score unchanged for empty text, otherwise
`max(0.0, base_score - penalty)` for the penalty of the text's hash. -/
noncomputable def get_adjusted_score (st : FeedbackState) (base_score : ℝ) (text : String) : ℝ :=
  if text = "" then base_score
  else max 0 (base_score - (get_score_penalty st (hash_text text) : ℝ))

/-- The effective downvote count that `get_score_penalty` acts on: the
`thumbs_down` field of `get_vote_summary`, `0` when no summary exists. -/
def downvote_count (st : FeedbackState) (text_hash : String) : ℕ :=
  match get_vote_summary st text_hash with
  | none => 0
  | some votes => votes.thumbs_down

/-! ## feedback_utils.py: recording feedback -/

/-- The vote-increment step inside `update_json_adjustments`. -/
def bump_vote (v : VoteCounts) (vote : String) : VoteCounts :=
  if vote = "up" then ⟨v.thumbs_up + 1, v.thumbs_down⟩
  else if vote = "down" then ⟨v.thumbs_up, v.thumbs_down + 1⟩
  else v

/-- `update_json_adjustments`: load the adjustments map, create the entry
with zero counts if absent, increment the counter for the vote, save. -/
def update_json_adjustments (adj : List (String × VoteCounts)) (text_hash vote : String) :
    List (String × VoteCounts) :=
  match adj.lookup text_hash with
  | none => adj ++ [(text_hash, bump_vote ⟨0, 0⟩ vote)]
  | some _ => adj.map fun p => if p.1 = text_hash then (p.1, bump_vote p.2 vote) else p

/-- `log_feedback_to_database`: `False` without touching anything when the
database is unavailable, otherwise insert one feedback row (user id and
document id resolved by lookup, `None` when missing) and return `True`. -/
def log_feedback_to_database (db : FeedbackDB) (user_email text query vote : String) :
    Bool × FeedbackDB :=
  if db.available = false then (false, db)
  else
    let h := hash_text text
    let row : FeedbackRecord :=
      ⟨db.users user_email, (if h = "" then none else db.doc_id_of_hash h), query, vote⟩
    (true, { db with records := db.records ++ [row] })

/-- `log_feedback` from feedback_utils.py: reject (returning `False` and
changing nothing) when the text is empty or the vote is neither `"up"` nor
`"down"`; otherwise write to the database (primary), and when
`BACKUP_ENABLED` also append to the JSONL backup log and update the
adjustments map; the result is `db_success or BACKUP_ENABLED`. -/
def log_feedback (st : FeedbackState) (query text vote : String)
    (user_email : Option String) : Bool × FeedbackState :=
  if text = "" ∨ (vote ≠ "up" ∧ vote ≠ "down") then (false, st)
  else
    let email := match user_email with
      | none => "anonymous"
      | some e => if e = "" then "anonymous" else e
    let h := hash_text text
    let dbres := log_feedback_to_database st.db email text query vote
    let st1 : FeedbackState := { st with db := dbres.2 }
    let st2 : FeedbackState :=
      if BACKUP_ENABLED then
        { st1 with
            json_log := st1.json_log ++ [⟨query, h, vote, email⟩],
            adjustments := update_json_adjustments st1.adjustments h vote }
      else st1
    (dbres.1 || BACKUP_ENABLED, st2)

/-! ## query_blocking.py: denylist and heuristic rules -/

/-- Substring occurrence on character lists, the semantics of Python's
`needle in haystack` for strings (the empty needle occurs in everything). -/
def occurs_in : List Char → List Char → Bool
  | needle, [] => needle.isEmpty
  | needle, c :: rest => needle.isPrefixOf (c :: rest) || occurs_in needle rest

/-- `is_blocked_query(query, blocked_phrases)`: some denylist phrase is a
substring of the lowercased query.  The phrase list is the already-lowercased
list produced by `load_blocked_phrases` (non-empty lines of the denylist
file, per `load_text_file_lines`). -/
def is_blocked_query (blocked_phrases : List String) (query : String) : Bool :=
  blocked_phrases.any fun phrase => occurs_in phrase.data (py_lower query).data

/-- `validate_and_log_query(email, query)`: `True` (allowed) unless
`is_blocked_query` fires; the audit-log side effect carries no information
back into the decision and is omitted.  Note that this entry point consults
only the denylist, not the heuristic rules. -/
def validate_and_log_query (blocked_phrases : List String) (query : String) : Bool :=
  !(is_blocked_query blocked_phrases query)

/-- `rule_excessive_caps`: `False` for raw length below 10, otherwise block
when uppercase characters make up strictly more than 0.7 of the raw length.
Both the length test and the denominator use the query as given, without
trimming.  `Char.isUpper` models Python's `str.isupper` (they agree on the
ASCII range). -/
def rule_excessive_caps (query : String) : Bool :=
  if query.length < 10 then false
  else decide ((7 : ℚ) / 10 < (query.data.countP Char.isUpper : ℚ) / (query.length : ℚ))

/-- The inner scan of `rule_excessive_repetition`: some position `i` has
`word[i] == word[i+1] == word[i+2]`. -/
def has_triple_repeat : List Char → Bool
  | a :: b :: rest =>
      (match rest with
       | c :: _ => a == b && b == c
       | [] => false) || has_triple_repeat (b :: rest)
  | _ => false

/-- `rule_excessive_repetition`: block when some whitespace-separated word
longer than 5 characters contains three consecutive identical characters. -/
def rule_excessive_repetition (query : String) : Bool :=
  (py_split query).any fun w => decide (5 < w.length) && has_triple_repeat w.toList

/-- `rule_too_short`: block when the stripped query has fewer than 3
characters. -/
def rule_too_short (query : String) : Bool :=
  decide ((py_strip query).length < 3)

/-- `QueryFilter.is_query_blocked`: the denylist check, then every custom
rule in order.  A rule raising an exception is skipped (fail-open); the rules
here are total functions, so that branch has no residue in the model. -/
def is_query_blocked (blocked_phrases : List String) (rules : List (String → Bool))
    (query : String) : Bool :=
  is_blocked_query blocked_phrases query || rules.any fun r => r query

/-- The rule list installed by `setup_default_rules`, in registration
order. -/
def default_rules : List (String → Bool) :=
  [rule_excessive_caps, rule_excessive_repetition, rule_too_short]

/-! ## search_service.py: similarity scorer -/

/-- `np.dot` on equal-length float vectors represented as lists. -/
def dot_product (a b : List ℝ) : ℝ :=
  (List.zipWith (fun x y => x * y) a b).sum

/-- `np.linalg.norm`: the Euclidean norm, the square root of the
self-dot-product. -/
noncomputable def vec_norm (a : List ℝ) : ℝ :=
  Real.sqrt (dot_product a a)

/-- `DatabaseSearchService.cosine_similarity`: `0.0` when either norm is
zero (the explicit division-by-zero guard), otherwise
`dot / (norm1 * norm2)`.  The Python body is wrapped in a `try/except`
returning `0.0`; the model is a total function, so no exception path
exists. -/
noncomputable def cosine_similarity (vec1 vec2 : List ℝ) : ℝ :=
  if vec_norm vec1 = 0 ∨ vec_norm vec2 = 0 then 0
  else dot_product vec1 vec2 / (vec_norm vec1 * vec_norm vec2)

/-! ## search_service.py: candidate fetch -/

/-- One row of the `documents` table as selected by `build_search_query`.
SQL `NULL` in `text`, `source`, `category`, `title` is collapsed to `""`
(every branch of the code treats the two identically: the SQL filter and
the `or`-defaults), and a `NULL` or non-array `embedding_json` is collapsed
to `[]` (length 0, so it fails the 384-length conditions exactly as the SQL
row would). -/
structure Document where
  id : ℕ
  doc_id : String
  text : String
  source : String
  category : String
  title : String
  embedding : List ℝ

/-- The category filter mapping inside `build_search_query`. -/
def filter_mapping (s : String) : Option String :=
  if s = "quran-only" then some "quran"
  else if s = "hadith-only" then some "hadith"
  else if s = "fatwa-only" then some "fatwa"
  else if s = "zakat-only" then some "zakat"
  else if s = "other-only" then some "other"
  else none

/-- `build_search_query` reduced to its observable content: the category
constraint added to the fixed base query.  A falsy (`None` or empty) filter,
or one outside the mapping, adds no constraint. -/
def build_search_query (source_filter : Option String) : Option String :=
  match source_filter with
  | none => none
  | some s => if s = "" then none else filter_mapping s

/-- SQL `LENGTH(TRIM(text))`: character count after removing spaces from
both ends (SQL `TRIM` with no arguments removes the space character). -/
def sql_trim_len (s : String) : ℕ :=
  (((s.toList.dropWhile fun c => c = ' ').reverse.dropWhile fun c => c = ' ').reverse).length

/-- The `WHERE` clause of `build_search_query` on one row: `text` non-NULL
with trimmed length above 20, `embedding_json` non-NULL of JSON array length
exactly 384, and the category constraint when one was added.  There is no
`LIMIT`. -/
def passes_sql_filter (category_filter : Option String) (d : Document) : Bool :=
  decide (20 < sql_trim_len d.text) && decide (d.embedding.length = 384) &&
    (match category_filter with
     | none => true
     | some c => d.category == c)

/-- The candidate fetch in `search`: every stored document passing the SQL
filter, in store order, with no cap on the candidate-set size. -/
def fetch_documents (docs : List Document) (source_filter : Option String) : List Document :=
  docs.filter (passes_sql_filter (build_search_query source_filter))

/-! ## search_service.py: scoring loop, ranking, truncation -/

/-- `calculate_category_priority`: the fixed priority map with default 5
for unknown categories (lower is higher priority). -/
def calculate_category_priority (category : String) : ℕ :=
  if category = "quran" then 0
  else if category = "hadith" then 1
  else if category = "fatwa" then 2
  else if category = "zakat" then 3
  else if category = "other" then 4
  else 5

/-- One entry of the result list built by `search` (the `metadata`
pass-through field is omitted). -/
structure SearchResult where
  id : ℕ
  doc_id : String
  text : String
  source : String
  category : String
  title : String
  score : ℝ
  base_score : ℝ

/-- The result dictionary built for a surviving candidate: cleaned text,
falsy `source` defaulted to `"unknown"`, falsy `category` defaulted to
`"other"`, and both `score` and `base_score` set to the raw cosine
similarity.  `clean_text` (utils/text_processing.py) is a long chain of
regex rewrites with no effect on the control flow here beyond the length
check, so the pipeline is parametric in it. -/
noncomputable def make_result (clean_text : String → String) (query_embedding : List ℝ)
    (d : Document) : SearchResult :=
  { id := d.id
    doc_id := d.doc_id
    text := if d.text = "" then "" else clean_text d.text
    source := if d.source = "" then "unknown" else d.source
    category := if d.category = "" then "other" else d.category
    title := d.title
    score := cosine_similarity query_embedding d.embedding
    base_score := cosine_similarity query_embedding d.embedding }

/-- One iteration of the scoring loop in `search`: skip on embedding shape
mismatch, compute the similarity, skip when it is below `min_score`, skip
when the cleaned stripped text has fewer than 20 characters, otherwise emit
the result record. -/
noncomputable def process_candidate (clean_text : String → String) (query_embedding : List ℝ)
    (min_score : ℝ) (d : Document) : Option SearchResult :=
  if d.embedding.length ≠ 384 then none
  else if cosine_similarity query_embedding d.embedding < min_score then none
  else if (py_strip (if d.text = "" then "" else clean_text d.text)).length < 20 then none
  else some (make_result clean_text query_embedding d)

/-- The `scored_results` list of `search`: the scoring loop over the fetched
candidates, keeping the survivors in store order. -/
noncomputable def scored_results (clean_text : String → String) (query_embedding : List ℝ)
    (min_score : ℝ) (docs : List Document) (source_filter : Option String) :
    List SearchResult :=
  (fetch_documents docs source_filter).filterMap
    (process_candidate clean_text query_embedding min_score)

/-- The sort key ordering of `search`: ascending
`(calculate_category_priority(category), -score)`, i.e. category priority
first, then score descending. -/
def res_le (x y : SearchResult) : Prop :=
  calculate_category_priority x.category < calculate_category_priority y.category ∨
    (calculate_category_priority x.category = calculate_category_priority y.category ∧
      y.score ≤ x.score)

noncomputable instance : DecidableRel res_le := fun x y => by
  unfold res_le; exact inferInstance

instance : IsTotal SearchResult res_le where
  total x y := by
    unfold res_le
    rcases lt_trichotomy (calculate_category_priority x.category)
        (calculate_category_priority y.category) with h | h | h
    · exact Or.inl (Or.inl h)
    · rcases le_total y.score x.score with hs | hs
      · exact Or.inl (Or.inr ⟨h, hs⟩)
      · exact Or.inr (Or.inr ⟨h.symm, hs⟩)
    · exact Or.inr (Or.inl h)

instance : IsTrans SearchResult res_le where
  trans x y z := by
    unfold res_le
    rintro (h₁ | ⟨h₁, s₁⟩) (h₂ | ⟨h₂, s₂⟩)
    · exact Or.inl (h₁.trans h₂)
    · exact Or.inl (h₂ ▸ h₁)
    · exact Or.inl (h₁ ▸ h₂)
    · exact Or.inr ⟨h₁.trans h₂, s₂.trans s₁⟩

/-- `scored_results.sort(key=lambda x: (priority, -score))`: a stable
comparison sort by the lexicographic key, modelled by insertion sort over
`res_le` (the theorems below use only sortedness and permutation, which any
comparison sort satisfies). -/
noncomputable def sort_results (l : List SearchResult) : List SearchResult :=
  List.insertionSort res_le l

/-- Python's `l[:k]` for an arbitrary integer `k`: the first `k` elements
for `k ≥ 0`, everything but the last `|k|` elements for `k < 0`. -/
def py_slice {α : Type} (k : ℤ) (l : List α) : List α :=
  if 0 ≤ k then l.take k.toNat else l.take (l.length - (-k).toNat)

/-- `DatabaseSearchService.search`, from the point where the query has been
embedded: fetch all qualifying candidates, score and threshold them,
sort by (category priority, -score), truncate to `top_k`.  The query
vectorisation is the external embedding provider and enters as
`query_embedding`; `clean_text` is the text-cleaning collaborator.  The
surrounding `try/except` returns `[]` on exception; every step of the body
is total here, so the model has no exception path.  Nowhere does this
function consult the feedback state. -/
noncomputable def search (docs : List Document) (clean_text : String → String)
    (query_embedding : List ℝ) (top_k : ℤ) (min_score : ℝ)
    (source_filter : Option String) : List SearchResult :=
  py_slice top_k
    (sort_results (scored_results clean_text query_embedding min_score docs source_filter))

/-! ## Concrete fixtures used by the witnesses and counterexamples -/

/-- A feedback state whose only content is the JSON adjustments map: the
database import failed (`DATABASE_AVAILABLE = False`), so every lookup falls
through to `feedback_adjustments.json`. -/
def json_only_state (adjustments : List (String × VoteCounts)) : FeedbackState :=
  { db := { available := false, users := fun _ => none,
            doc_id_of_hash := fun _ => none, records := [] },
    json_log := [], adjustments := adjustments }

/-- A 384-dimensional unit vector: 1 followed by 383 zeros. -/
def e0 : List ℝ := 1 :: List.replicate 383 0

/-- A 384-dimensional unit vector orthogonal to `e0`. -/
def e1 : List ℝ := 0 :: 1 :: List.replicate 382 0

/-- A 25-character document text (passes both the SQL trimmed-length filter
and the cleaned-length check). -/
def textA : String := "abcdefghijklmnopqrstuvwxy"

/-- Fixture: a category-`other` document whose embedding matches the test
query vector `e0` exactly (similarity 1). -/
def doc_other : Document :=
  { id := 1, doc_id := "d1", text := textA, source := "src1",
    category := "other", title := "", embedding := e0 }

/-- Fixture: a category-`quran` document orthogonal to the test query
vector `e0` (similarity 0). -/
def doc_quran : Document :=
  { id := 2, doc_id := "d2", text := textA, source := "src2",
    category := "quran", title := "", embedding := e1 }

/-- Fixture: a document with non-empty text of trimmed length 10 and a valid
384-dimensional embedding — shorter than the 20-character SQL cutoff. -/
def doc_short : Document :=
  { id := 3, doc_id := "d3", text := "short text", source := "s",
    category := "other", title := "", embedding := e0 }

/-- Fixture: a category-`quran` document whose embedding matches the test
query vector `e0` exactly. -/
def doc_quran_b : Document :=
  { id := 4, doc_id := "d4", text := textA, source := "s",
    category := "quran", title := "", embedding := e0 }

/-- The result record `search` builds for `doc_other` under the identity
cleaner and query vector `e0`. -/
noncomputable def res_other : SearchResult := make_result (fun s => s) e0 doc_other

/-- The result record `search` builds for `doc_quran` under the identity
cleaner and query vector `e0`. -/
noncomputable def res_quran : SearchResult := make_result (fun s => s) e0 doc_quran

/-- A feedback state in which the content-hash of `textA` has accumulated 5
downvotes (penalty 0.1). -/
def fbA : FeedbackState := json_only_state [(hash_text textA, ⟨0, 5⟩)]

/-- Fixture results for the ranking claim: a scripture (`quran`) result with
score 0.4. -/
noncomputable def r_scripture : SearchResult :=
  { id := 11, doc_id := "r1", text := "t1", source := "s1", category := "quran",
    title := "", score := 2/5, base_score := 2/5 }

/-- Fixture: a ruling (`fatwa`) result with score 0.9. -/
noncomputable def r_ruling : SearchResult :=
  { id := 12, doc_id := "r2", text := "t2", source := "s2", category := "fatwa",
    title := "", score := 9/10, base_score := 9/10 }

/-- Fixture: a ruling (`fatwa`) result with score 0.6. -/
noncomputable def r_ruling_hi : SearchResult :=
  { id := 13, doc_id := "r3", text := "t3", source := "s3", category := "fatwa",
    title := "", score := 3/5, base_score := 3/5 }

/-- Fixture: a ruling (`fatwa`) result with score 0.3. -/
noncomputable def r_ruling_lo : SearchResult :=
  { id := 14, doc_id := "r4", text := "t4", source := "s4", category := "fatwa",
    title := "", score := 3/10, base_score := 3/10 }

/-! ## Helper lemmas: feedback penalties -/

/-- `get_score_penalty` is exactly the capped linear function of the
effective downvote count, for every state and hash (the empty-hash and
no-summary early returns coincide with the formula at count 0). -/
theorem get_score_penalty_eq (st : FeedbackState) (h : String) :
    get_score_penalty st h =
      min (PENALTY_PER_DOWNVOTE * (downvote_count st h : ℚ)) MAX_PENALTY := by
  unfold get_score_penalty downvote_count
  by_cases hh : h = ""
  · rw [if_pos hh]
    have : get_vote_summary st h = none := by unfold get_vote_summary; rw [if_pos hh]
    rw [this]
    norm_num [PENALTY_PER_DOWNVOTE, MAX_PENALTY, min_def]
  · rw [if_neg hh]
    cases hv : get_vote_summary st h with
    | none => norm_num [PENALTY_PER_DOWNVOTE, MAX_PENALTY, min_def]
    | some v => rfl

/-- The penalty is never negative. -/
theorem get_score_penalty_nonneg (st : FeedbackState) (h : String) :
    0 ≤ get_score_penalty st h := by
  rw [get_score_penalty_eq]
  apply le_min
  · have : (0 : ℚ) ≤ (downvote_count st h : ℚ) := Nat.cast_nonneg _
    rw [PENALTY_PER_DOWNVOTE]
    positivity
  · rw [MAX_PENALTY]; norm_num

/-- The penalty of an empty feedback state is zero, for every hash. -/
theorem get_score_penalty_empty (h : String) :
    get_score_penalty (json_only_state []) h = 0 := by
  by_cases hh : h = ""
  · unfold get_score_penalty
    rw [if_pos hh]
  · unfold get_score_penalty get_vote_summary
    rw [if_neg hh, if_neg hh]
    simp [json_only_state]

/-- Evaluation of the penalty on a state whose adjustments map holds a
single entry for the queried hash. -/
theorem get_score_penalty_json_single (h : String) (hh : h ≠ "") (u d : ℕ) :
    get_score_penalty (json_only_state [(h, ⟨u, d⟩)]) h =
      min (PENALTY_PER_DOWNVOTE * (d : ℚ)) MAX_PENALTY := by
  have hd : downvote_count (json_only_state [(h, ⟨u, d⟩)]) h = d := by
    unfold downvote_count get_vote_summary get_feedback_stats_from_database
    rw [if_neg hh]
    simp [json_only_state, List.lookup]
  rw [get_score_penalty_eq, hd]

/-- The penalty read by `fbA` for the hash of `textA` is 0.1. -/
theorem get_score_penalty_fbA :
    get_score_penalty fbA (hash_text textA) = 1 / 10 := by
  have hd : downvote_count fbA (hash_text textA) = 5 := by decide
  rw [show fbA = json_only_state [(hash_text textA, ⟨0, 5⟩)] from rfl] at hd ⊢
  rw [get_score_penalty_eq, hd]
  norm_num [PENALTY_PER_DOWNVOTE, MAX_PENALTY, min_def]

/-! ## Claim C3 -/

/-- C3: the feedback penalty equals
`min(PENALTY_PER_DOWNVOTE * downvote_count, MAX_PENALTY)` with the constants
0.02 and 0.3; it is a function of the (effective) downvote count alone and
monotone non-decreasing in it; upvote counts recorded alongside never
change it; and it saturates: 5 downvotes give penalty 0.1, and 20 and 100
downvotes both give exactly 0.3. -/
theorem C3_penalty_formula :
    PENALTY_PER_DOWNVOTE = 2 / 100 ∧ MAX_PENALTY = 3 / 10 ∧
    (∀ st h, get_score_penalty st h =
      min (PENALTY_PER_DOWNVOTE * (downvote_count st h : ℚ)) MAX_PENALTY) ∧
    (∀ st h st' h', downvote_count st h ≤ downvote_count st' h' →
      get_score_penalty st h ≤ get_score_penalty st' h') ∧
    (∀ (u u' d : ℕ) (h : String), h ≠ "" →
      get_score_penalty (json_only_state [(h, ⟨u, d⟩)]) h =
        get_score_penalty (json_only_state [(h, ⟨u', d⟩)]) h) ∧
    get_score_penalty (json_only_state [("h1", ⟨0, 5⟩)]) "h1" = 1 / 10 ∧
    get_score_penalty (json_only_state [("h1", ⟨0, 20⟩)]) "h1" = 3 / 10 ∧
    get_score_penalty (json_only_state [("h1", ⟨0, 100⟩)]) "h1" = 3 / 10 := by
  refine ⟨by norm_num [PENALTY_PER_DOWNVOTE], by rfl, get_score_penalty_eq, ?_, ?_,
    ?_, ?_, ?_⟩
  · intro st h st' h' hle
    rw [get_score_penalty_eq, get_score_penalty_eq]
    apply min_le_min _ le_rfl
    apply mul_le_mul_of_nonneg_left (Nat.cast_le.mpr hle)
    rw [PENALTY_PER_DOWNVOTE]; norm_num
  · intro u u' d h hh
    rw [get_score_penalty_json_single h hh, get_score_penalty_json_single h hh]
  · rw [get_score_penalty_json_single "h1" (by decide)]
    norm_num [PENALTY_PER_DOWNVOTE, MAX_PENALTY, min_def]
  · rw [get_score_penalty_json_single "h1" (by decide)]
    norm_num [PENALTY_PER_DOWNVOTE, MAX_PENALTY, min_def]
  · rw [get_score_penalty_json_single "h1" (by decide)]
    norm_num [PENALTY_PER_DOWNVOTE, MAX_PENALTY, min_def]

/-- Witness for C3: the monotonicity clause applied at concrete states with
3 and 7 downvotes. -/
theorem C3_penalty_formula_witness :
    get_score_penalty (json_only_state [("a", ⟨0, 3⟩)]) "a" ≤
      get_score_penalty (json_only_state [("a", ⟨0, 7⟩)]) "a" :=
  C3_penalty_formula.2.2.2.1 _ "a" _ "a" (by decide)

/-! ## Claim C2 -/

/-- C2 counterexample: the claimed bound `0 ≤ adjusted ≤ base` fails for a
negative base score (raw cosine similarity can be negative).  With no
feedback recorded, `get_adjusted_score (-0.5) "hello"` is `max 0 (-0.5) = 0`,
which exceeds the base, and for empty text the clamp is skipped entirely, so
`get_adjusted_score (-0.5) ""` is `-0.5 < 0`. -/
theorem C2_counterexample :
    get_adjusted_score (json_only_state []) (-(1 / 2) : ℝ) "hello" = 0 ∧
    ¬(get_adjusted_score (json_only_state []) (-(1 / 2) : ℝ) "hello" ≤ -(1 / 2)) ∧
    get_adjusted_score (json_only_state []) (-(1 / 2) : ℝ) "" = -(1 / 2) ∧
    ¬((0 : ℝ) ≤ get_adjusted_score (json_only_state []) (-(1 / 2) : ℝ) "") := by
  have h1 : get_adjusted_score (json_only_state []) (-(1 / 2) : ℝ) "hello" = 0 := by
    unfold get_adjusted_score
    rw [if_neg (by decide), get_score_penalty_empty]
    norm_num
  have h2 : get_adjusted_score (json_only_state []) (-(1 / 2) : ℝ) "" = -(1 / 2) := by
    unfold get_adjusted_score
    rw [if_pos rfl]
  refine ⟨h1, ?_, h2, ?_⟩
  · rw [h1]; norm_num
  · rw [h2]; norm_num

/-- C2 amended: for every non-negative base score and every text,
`0 ≤ get_adjusted_score(base, text) ≤ base` (the adjusted score never goes
negative and never exceeds the base similarity).  The restriction to
`0 ≤ base` is forced by the counterexample: for a negative base the clamp
`max(0, ...)` lands above the base, and for empty text the base is returned
unclamped. -/
theorem C2_adjusted_score_bounds (st : FeedbackState) (base : ℝ) (text : String)
    (hbase : 0 ≤ base) :
    0 ≤ get_adjusted_score st base text ∧ get_adjusted_score st base text ≤ base := by
  unfold get_adjusted_score
  by_cases ht : text = ""
  · rw [if_pos ht]; exact ⟨hbase, le_rfl⟩
  · rw [if_neg ht]
    constructor
    · exact le_max_left 0 _
    · apply max_le hbase
      apply sub_le_self
      exact_mod_cast get_score_penalty_nonneg st (hash_text text)

/-- Witness for C2: the bounds at base 1 and text `"x"`. -/
theorem C2_adjusted_score_bounds_witness :
    0 ≤ get_adjusted_score (json_only_state []) 1 "x" ∧
      get_adjusted_score (json_only_state []) 1 "x" ≤ 1 :=
  C2_adjusted_score_bounds (json_only_state []) 1 "x" (by norm_num)

/-! ## Claim C10 -/

/-- C10: `log_feedback` with empty text or a vote other than `"up"` /
`"down"` returns `False` and leaves the entire feedback state (database
rows, backup JSONL log, adjustments map) unchanged. -/
theorem C10_invalid_feedback_rejected (st : FeedbackState) (query text vote : String)
    (user_email : Option String)
    (h : text = "" ∨ (vote ≠ "up" ∧ vote ≠ "down")) :
    log_feedback st query text vote user_email = (false, st) := by
  unfold log_feedback
  rw [if_pos h]

/-- Witness for C10: an empty text and, separately reachable through the
same theorem, an invalid vote leave the state untouched. -/
theorem C10_invalid_feedback_rejected_witness :
    log_feedback (json_only_state []) "q" "" "up" none = (false, json_only_state []) ∧
    log_feedback (json_only_state []) "q" "some document text" "sideways" none =
      (false, json_only_state []) :=
  ⟨C10_invalid_feedback_rejected _ "q" "" "up" none (Or.inl rfl),
   C10_invalid_feedback_rejected _ "q" "some document text" "sideways" none
     (Or.inr (by decide))⟩

/-! ## Claim C7 -/

/-- C7 counterexample: the claim ties the rule to the trimmed length, but
`rule_excessive_caps` uses the raw length for both the 10-character gate and
the ratio denominator.  `"ABCDEFGH  "` (8 uppercase letters plus 2 trailing
spaces) has raw length 10 and uppercase share 0.8, so the code blocks it,
while its trimmed length is 8, so the claimed rule would allow it. -/
theorem C7_counterexample :
    rule_excessive_caps "ABCDEFGH  " = true ∧ (py_strip "ABCDEFGH  ").length < 10 := by
  constructor
  · unfold rule_excessive_caps
    rw [if_neg (by decide)]
    rw [show ("ABCDEFGH  ".data.countP Char.isUpper) = 8 from by decide,
        show ("ABCDEFGH  ".length) = 10 from by decide]
    simp only [decide_eq_true_eq]
    push_cast
    norm_num
  · decide

/-- C7 amended: the excessive-capitalization rule blocks a query if and only
if the query's RAW (untrimmed) length is at least 10 and the uppercase
characters make up strictly more than 0.7 of that raw length. -/
theorem C7_caps_rule_raw_length (q : String) :
    rule_excessive_caps q = true ↔
      (10 ≤ q.length ∧ (7 : ℚ) / 10 < (q.data.countP Char.isUpper : ℚ) / (q.length : ℚ)) := by
  unfold rule_excessive_caps
  by_cases h : q.length < 10
  · rw [if_pos h]
    simp only [Bool.false_eq_true, false_iff]
    rintro ⟨h10, -⟩
    omega
  · rw [if_neg h]
    simp only [decide_eq_true_eq]
    constructor
    · intro hr; exact ⟨Nat.le_of_not_lt h, hr⟩
    · rintro ⟨-, hr⟩; exact hr

/-- Witness for C7: a 12-character all-caps query is blocked. -/
theorem C7_caps_rule_raw_length_witness :
    rule_excessive_caps "AAAAAAAAAAAA" = true :=
  (C7_caps_rule_raw_length "AAAAAAAAAAAA").mpr ⟨by decide, by
    rw [show ("AAAAAAAAAAAA".data.countP Char.isUpper) = 12 from by decide,
        show ("AAAAAAAAAAAA".length) = 12 from by decide]
    push_cast
    norm_num⟩

/-! ## Claim C8 -/

/-- C8 counterexample: the claim says `"hi"` is always blocked on its way to
retrieval, but `validate_and_log_query` — the admission entry point named by
the claim — consults only the denylist, never the heuristic rules, so with
an empty denylist `"hi"` is allowed (`True`). -/
theorem C8_counterexample :
    validate_and_log_query [] "hi" = true := by decide

/-- C8 amended: `validate_and_log_query` allows or blocks purely by the
denylist (so `"hi"` passes it whenever no denylist phrase matches), while
the `QueryFilter` configured by `setup_default_rules` does block `"hi"` for
every denylist content; when the denylist does not match, the block comes
from `rule_too_short` (the caps and repetition rules both pass `"hi"`). -/
theorem C8_hi_blocked_by_default_rules (blocked_phrases : List String) :
    validate_and_log_query blocked_phrases "hi" =
      !(is_blocked_query blocked_phrases "hi") ∧
    is_query_blocked blocked_phrases default_rules "hi" = true ∧
    rule_too_short "hi" = true ∧
    rule_excessive_caps "hi" = false ∧
    rule_excessive_repetition "hi" = false := by
  refine ⟨rfl, ?_, by decide, by decide, by decide⟩
  unfold is_query_blocked default_rules
  have h3 : rule_too_short "hi" = true := by decide
  simp [List.any_cons, List.any_nil, h3]

/-- Witness for C8: with an empty denylist, the default-rule filter blocks
`"hi"`. -/
theorem C8_hi_blocked_by_default_rules_witness :
    is_query_blocked [] default_rules "hi" = true :=
  (C8_hi_blocked_by_default_rules []).2.1

/-! ## Helper lemmas: dot products and norms -/

/-- Unfolding the dot product over a cons pair. -/
theorem dot_product_cons (x y : ℝ) (xs ys : List ℝ) :
    dot_product (x :: xs) (y :: ys) = x * y + dot_product xs ys := by
  simp [dot_product]

/-- The dot product of a zero vector with anything is zero. -/
theorem dot_product_replicate_zero (n : ℕ) (l : List ℝ) :
    dot_product (List.replicate n 0) l = 0 := by
  induction n generalizing l with
  | zero => simp [dot_product]
  | succ k ih =>
      cases l with
      | nil => simp [dot_product]
      | cons x xs =>
          rw [List.replicate_succ, dot_product_cons, ih]
          ring

/-- The self-dot-product of an all-zero vector is zero. -/
theorem dot_product_self_zero (a : List ℝ) (ha : ∀ x ∈ a, x = 0) :
    dot_product a a = 0 := by
  induction a with
  | nil => simp [dot_product]
  | cons x xs ih =>
      have hx : x = 0 := ha x (List.mem_cons_self x xs)
      have hxs : ∀ y ∈ xs, y = 0 := fun y hy => ha y (List.mem_cons_of_mem x hy)
      rw [dot_product_cons, hx, ih hxs]
      ring

/-! ## Claim C6 -/

/-- C6: `cosine_similarity` returns exactly `0.0` when either vector has
zero norm (in particular for every all-zero vector) and never raises (it is
a total function; the Python `try/except` fallback is unreachable in the
arithmetic on lists of floats), and on vectors of non-zero norm it is
exactly `dot(a,b) / (norm(a) * norm(b))`. -/
theorem C6_cosine_zero_norm_safe (a b : List ℝ) :
    ((vec_norm a = 0 ∨ vec_norm b = 0) → cosine_similarity a b = 0) ∧
    (vec_norm a ≠ 0 → vec_norm b ≠ 0 →
      cosine_similarity a b = dot_product a b / (vec_norm a * vec_norm b)) ∧
    ((∀ x ∈ a, x = 0) → cosine_similarity a b = 0 ∧ cosine_similarity b a = 0) := by
  have hz : (∀ x ∈ a, x = 0) → vec_norm a = 0 := fun ha => by
    rw [vec_norm, dot_product_self_zero a ha, Real.sqrt_zero]
  refine ⟨?_, ?_, ?_⟩
  · intro h
    unfold cosine_similarity
    rw [if_pos h]
  · intro h1 h2
    unfold cosine_similarity
    rw [if_neg (by tauto)]
  · intro ha
    constructor
    · unfold cosine_similarity
      rw [if_pos (Or.inl (hz ha))]
    · unfold cosine_similarity
      rw [if_pos (Or.inr (hz ha))]

/-- Witness for C6: the zero vector against `[3, 4, 5]`, in both argument
orders. -/
theorem C6_cosine_zero_norm_safe_witness :
    cosine_similarity [(0 : ℝ), 0, 0] [3, 4, 5] = 0 ∧
      cosine_similarity [(3 : ℝ), 4, 5] [0, 0, 0] = 0 := by
  have h := (C6_cosine_zero_norm_safe [(0 : ℝ), 0, 0] [3, 4, 5]).2.2 ?_
  · exact ⟨h.1, h.2⟩
  · intro x hx
    rcases List.mem_cons.mp hx with h1 | hx
    · exact h1
    rcases List.mem_cons.mp hx with h1 | hx
    · exact h1
    rcases List.mem_cons.mp hx with h1 | hx
    · exact h1
    · exact absurd hx (List.not_mem_nil x)

/-! ## Helper lemmas: fixture vectors -/

theorem dot_e0_e0 : dot_product e0 e0 = 1 := by
  unfold e0
  rw [dot_product_cons, dot_product_replicate_zero]
  norm_num

theorem dot_e0_e1 : dot_product e0 e1 = 0 := by
  unfold e0 e1
  rw [dot_product_cons, dot_product_replicate_zero]
  norm_num

theorem dot_e1_e1 : dot_product e1 e1 = 1 := by
  unfold e1
  rw [dot_product_cons, dot_product_cons, dot_product_replicate_zero]
  norm_num

theorem vec_norm_e0 : vec_norm e0 = 1 := by
  rw [vec_norm, dot_e0_e0, Real.sqrt_one]

theorem vec_norm_e1 : vec_norm e1 = 1 := by
  rw [vec_norm, dot_e1_e1, Real.sqrt_one]

theorem cos_e0_e0 : cosine_similarity e0 e0 = 1 := by
  unfold cosine_similarity
  rw [if_neg (by rw [vec_norm_e0]; norm_num), dot_e0_e0, vec_norm_e0]
  norm_num

theorem cos_e0_e1 : cosine_similarity e0 e1 = 0 := by
  unfold cosine_similarity
  rw [if_neg (by rw [vec_norm_e0, vec_norm_e1]; norm_num), dot_e0_e1, vec_norm_e0, vec_norm_e1]
  norm_num

theorem e0_length : e0.length = 384 := by
  unfold e0
  rw [List.length_cons, List.length_replicate]

theorem e1_length : e1.length = 384 := by
  unfold e1
  rw [List.length_cons, List.length_cons, List.length_replicate]

/-! ## Helper lemmas: the search pipeline -/

/-- A Python slice `l[:k]` only ever returns elements of `l`. -/
theorem mem_py_slice {α : Type} (k : ℤ) (l : List α) (x : α) (hx : x ∈ py_slice k l) :
    x ∈ l := by
  unfold py_slice at hx
  split_ifs at hx <;> exact List.take_subset _ _ hx

/-- Inversion of one scoring-loop iteration: a candidate contributes a
result exactly when its embedding has length 384, its raw similarity is not
below `min_score`, and its cleaned stripped text has at least 20 characters;
the contributed record is then `make_result`. -/
theorem process_candidate_some_iff (ct : String → String) (qv : List ℝ) (ms : ℝ)
    (d : Document) (r : SearchResult) :
    process_candidate ct qv ms d = some r ↔
      d.embedding.length = 384 ∧ ¬(cosine_similarity qv d.embedding < ms) ∧
      20 ≤ (py_strip (if d.text = "" then "" else ct d.text)).length ∧
      r = make_result ct qv d := by
  unfold process_candidate
  constructor
  · intro h
    by_cases h1 : d.embedding.length ≠ 384
    · rw [if_pos h1] at h
      exact absurd h (by simp)
    · rw [if_neg h1] at h
      by_cases h2 : cosine_similarity qv d.embedding < ms
      · rw [if_pos h2] at h
        exact absurd h (by simp)
      · rw [if_neg h2] at h
        by_cases h3 : (py_strip (if d.text = "" then "" else ct d.text)).length < 20
        · rw [if_pos h3] at h
          exact absurd h (by simp)
        · rw [if_neg h3] at h
          exact ⟨not_ne_iff.mp h1, h2, by omega, (Option.some.inj h).symm⟩
  · rintro ⟨h1, h2, h3, rfl⟩
    rw [if_neg (by simp [h1]), if_neg h2, if_neg (by omega)]

/-- Membership in the scored-results list. -/
theorem mem_scored_results (ct : String → String) (qv : List ℝ) (ms : ℝ)
    (docs : List Document) (sf : Option String) (r : SearchResult) :
    r ∈ scored_results ct qv ms docs sf ↔
      ∃ d, d ∈ fetch_documents docs sf ∧ process_candidate ct qv ms d = some r := by
  unfold scored_results
  rw [List.mem_filterMap]

/-- Membership in the fetched candidate set. -/
theorem mem_fetch_documents (docs : List Document) (sf : Option String) (d : Document) :
    d ∈ fetch_documents docs sf ↔
      d ∈ docs ∧ passes_sql_filter (build_search_query sf) d = true := by
  unfold fetch_documents
  rw [List.mem_filter]

/-- Every fetched candidate has a 384-dimensional embedding. -/
theorem embedding_length_of_passes (cf : Option String) (d : Document)
    (h : passes_sql_filter cf d = true) : d.embedding.length = 384 := by
  unfold passes_sql_filter at h
  simp only [Bool.and_eq_true, decide_eq_true_eq] at h
  exact h.1.2

/-! ## Helper lemmas: concrete pipeline runs on the fixtures -/

theorem fetch_single : fetch_documents [doc_other] none = [doc_other] := by
  unfold fetch_documents
  have h : passes_sql_filter (build_search_query none) doc_other = true := by decide
  simp [List.filter_cons, h]

theorem fetch_pair :
    fetch_documents [doc_quran, doc_other] none = [doc_quran, doc_other] := by
  unfold fetch_documents
  have h1 : passes_sql_filter (build_search_query none) doc_quran = true := by decide
  have h2 : passes_sql_filter (build_search_query none) doc_other = true := by decide
  simp [List.filter_cons, h1, h2]

theorem proc_other (ms : ℝ) (hms : ¬((1 : ℝ) < ms)) :
    process_candidate (fun s => s) e0 ms doc_other = some res_other := by
  refine (process_candidate_some_iff _ _ _ _ _).mpr ⟨e0_length, ?_, by decide, rfl⟩
  show ¬(cosine_similarity e0 e0 < ms)
  rw [cos_e0_e0]
  exact hms

theorem proc_quran (ms : ℝ) (hms : ¬((0 : ℝ) < ms)) :
    process_candidate (fun s => s) e0 ms doc_quran = some res_quran := by
  refine (process_candidate_some_iff _ _ _ _ _).mpr ⟨e1_length, ?_, by decide, rfl⟩
  show ¬(cosine_similarity e0 e1 < ms)
  rw [cos_e0_e1]
  exact hms

theorem scored_single :
    scored_results (fun s => s) e0 (19 / 20 : ℝ) [doc_other] none = [res_other] := by
  unfold scored_results
  rw [fetch_single]
  simp [List.filterMap_cons, proc_other (19 / 20 : ℝ) (by norm_num)]

theorem scored_pair :
    scored_results (fun s => s) e0 (-1 : ℝ) [doc_quran, doc_other] none
      = [res_quran, res_other] := by
  unfold scored_results
  rw [fetch_pair]
  simp [List.filterMap_cons, proc_quran (-1 : ℝ) (by norm_num),
    proc_other (-1 : ℝ) (by norm_num)]

theorem res_le_quran_other : res_le res_quran res_other := by
  left
  decide

theorem sort_single : sort_results [res_other] = [res_other] := by
  unfold sort_results
  exact List.Sorted.insertionSort_eq (List.sorted_singleton _)

theorem sort_pair : sort_results [res_quran, res_other] = [res_quran, res_other] := by
  unfold sort_results
  apply List.Sorted.insertionSort_eq
  exact List.sorted_cons.mpr
    ⟨fun b hb => by rw [List.mem_singleton.mp hb]; exact res_le_quran_other,
     List.sorted_singleton _⟩

theorem ranked_pair :
    sort_results (scored_results (fun s => s) e0 (-1 : ℝ) [doc_quran, doc_other] none)
      = [res_quran, res_other] := by
  rw [scored_pair, sort_pair]

theorem search_single_other :
    search [doc_other] (fun s => s) e0 5 (19 / 20 : ℝ) none = [res_other] := by
  unfold search
  rw [scored_single, sort_single]
  unfold py_slice
  rw [if_pos (by norm_num)]
  rfl

/-! ## Claim C1 -/

/-- C1 counterexample: the claim says the score that is thresholded and
returned is the penalty-adjusted score.  Run `search` on a corpus whose one
document carries 5 downvotes in the feedback state `fbA` (penalty 0.1): the
result is returned with score 1 — the raw cosine similarity — although the
adjusted score would be 0.9, which is below the `min_score` of 0.95, so
under the claimed behaviour the candidate would have been discarded
altogether.  `search` takes no feedback state at all; no choice of feedback
state can make the claim true. -/
theorem C1_counterexample :
    search [doc_other] (fun s => s) e0 5 (19 / 20 : ℝ) none = [res_other] ∧
    res_other.score = 1 ∧
    get_adjusted_score fbA 1 doc_other.text = 9 / 10 ∧
    get_adjusted_score fbA 1 doc_other.text < 19 / 20 ∧
    res_other.score ≠ get_adjusted_score fbA 1 doc_other.text := by
  have hadj : get_adjusted_score fbA 1 doc_other.text = 9 / 10 := by
    show get_adjusted_score fbA 1 textA = 9 / 10
    unfold get_adjusted_score
    rw [if_neg (by decide : ¬(textA = "")), get_score_penalty_fbA]
    rw [max_eq_right (by push_cast; norm_num)]
    push_cast
    norm_num
  have hscore : res_other.score = 1 := by
    show cosine_similarity e0 e0 = 1
    exact cos_e0_e0
  refine ⟨search_single_other, hscore, hadj, ?_, ?_⟩
  · rw [hadj]; norm_num
  · rw [hscore, hadj]; norm_num

/-- C1 amended: every result returned by `search` carries the RAW cosine
similarity of its document as both `score` and `base_score`; the raw
similarity (not the adjusted one) is what was compared against `min_score`;
the feedback penalty is nowhere consulted — `search` does not read the
feedback state (`get_adjusted_score` exists in feedback_utils.py but has no
caller in the search path). -/
theorem C1_search_returns_raw_scores (docs : List Document) (ct : String → String)
    (qv : List ℝ) (top_k : ℤ) (ms : ℝ) (sf : Option String) (r : SearchResult)
    (hr : r ∈ search docs ct qv top_k ms sf) :
    ∃ d, d ∈ fetch_documents docs sf ∧ r = make_result ct qv d ∧
      r.score = cosine_similarity qv d.embedding ∧
      r.base_score = cosine_similarity qv d.embedding ∧
      ¬(cosine_similarity qv d.embedding < ms) := by
  unfold search at hr
  have hr1 : r ∈ sort_results (scored_results ct qv ms docs sf) := mem_py_slice _ _ _ hr
  have hr2 : r ∈ scored_results ct qv ms docs sf := by
    have hperm : List.Perm (sort_results (scored_results ct qv ms docs sf))
        (scored_results ct qv ms docs sf) := List.perm_insertionSort res_le _
    exact hperm.mem_iff.mp hr1
  obtain ⟨d, hd, hproc⟩ := (mem_scored_results _ _ _ _ _ _).mp hr2
  obtain ⟨h384, hms, hlen, hr_eq⟩ := (process_candidate_some_iff _ _ _ _ _).mp hproc
  exact ⟨d, hd, hr_eq, by rw [hr_eq]; rfl, by rw [hr_eq]; rfl, hms⟩

/-- Witness for C1: the single result of a concrete search, traced back to
its document with the raw similarity as score. -/
theorem C1_search_returns_raw_scores_witness :
    ∃ d, d ∈ fetch_documents [doc_other] none ∧
      res_other = make_result (fun s => s) e0 d ∧
      res_other.score = cosine_similarity e0 d.embedding ∧
      res_other.base_score = cosine_similarity e0 d.embedding ∧
      ¬(cosine_similarity e0 d.embedding < (19 / 20 : ℝ)) :=
  C1_search_returns_raw_scores [doc_other] (fun s => s) e0 5 (19 / 20) none res_other
    (by rw [search_single_other]; exact List.mem_singleton_self _)

/-! ## Claim C4 -/

/-- C4: in every result list produced by `search`, any earlier result has a
category of priority no worse than any later result (quran, then hadith,
fatwa, zakat, other), and among equal-priority (same-category) results the
scores are non-increasing — so a higher-priority category precedes a
lower-priority one regardless of score, and within a category the higher
score precedes.  The two concrete orderings from the spec follow: a
`quran` (scripture) result with score 0.4 sorts before a `fatwa` (ruling)
result with score 0.9, and a 0.6 `fatwa` result sorts before a 0.3 one.
(The score field is the raw similarity; see C1.) -/
theorem C4_category_priority_ordering :
    (∀ (docs : List Document) (ct : String → String) (qv : List ℝ) (k : ℤ)
        (ms : ℝ) (sf : Option String),
        (search docs ct qv k ms sf).Pairwise fun x y =>
          calculate_category_priority x.category < calculate_category_priority y.category ∨
            (calculate_category_priority x.category = calculate_category_priority y.category ∧
              y.score ≤ x.score)) ∧
    sort_results [r_ruling, r_scripture] = [r_scripture, r_ruling] ∧
    sort_results [r_ruling_lo, r_ruling_hi] = [r_ruling_hi, r_ruling_lo] := by
  refine ⟨?_, ?_, ?_⟩
  · intro docs ct qv k ms sf
    have hs : List.Sorted res_le (sort_results (scored_results ct qv ms docs sf)) := by
      unfold sort_results
      exact List.sorted_insertionSort res_le _
    have hp : (search docs ct qv k ms sf).Pairwise res_le := by
      unfold search py_slice
      split_ifs
      · exact List.Pairwise.sublist (List.take_sublist _ _) hs
      · exact List.Pairwise.sublist (List.take_sublist _ _) hs
    exact hp.imp fun h => h
  · have hno : ¬ res_le r_ruling r_scripture := by
      unfold res_le
      rintro (h | ⟨h, -⟩)
      · exact absurd h (by decide)
      · exact absurd h (by decide)
    unfold sort_results
    show List.orderedInsert res_le r_ruling (List.insertionSort res_le [r_scripture]) = _
    rw [show List.insertionSort res_le [r_scripture] = [r_scripture] from
      List.Sorted.insertionSort_eq (List.sorted_singleton _)]
    unfold List.orderedInsert
    rw [if_neg hno]
    rfl
  · have hno : ¬ res_le r_ruling_lo r_ruling_hi := by
      unfold res_le
      rintro (h | ⟨-, hs⟩)
      · exact absurd h (by decide)
      · rw [show r_ruling_hi.score = 3 / 5 from rfl,
          show r_ruling_lo.score = 3 / 10 from rfl] at hs
        norm_num at hs
    unfold sort_results
    show List.orderedInsert res_le r_ruling_lo (List.insertionSort res_le [r_ruling_hi]) = _
    rw [show List.insertionSort res_le [r_ruling_hi] = [r_ruling_hi] from
      List.Sorted.insertionSort_eq (List.sorted_singleton _)]
    unfold List.orderedInsert
    rw [if_neg hno]
    rfl

/-! ## Claim C5 -/

/-- C5 counterexample: the claimed candidate set is wrong on both counts.
(1) A document with non-empty text (`"short text"`, trimmed length 10) and a
valid 384-dimensional embedding is NOT fetched: the SQL filter requires
trimmed length strictly above 20, not mere non-emptiness.  (2) Even with
`top_k = 1` and a min_score below every similarity, the best-matching
document need not be returned: category priority dominates, so a `quran`
document with similarity 0 is returned ahead of an `other` document with
similarity 1. -/
theorem C5_counterexample :
    (fetch_documents [doc_short] none = [] ∧ doc_short.text ≠ "" ∧
      doc_short.embedding.length = 384) ∧
    (search [doc_quran, doc_other] (fun s => s) e0 1 (-1 : ℝ) none = [res_quran] ∧
      cosine_similarity e0 doc_other.embedding = 1 ∧
      cosine_similarity e0 doc_quran.embedding = 0) := by
  refine ⟨⟨?_, by decide, e0_length⟩, ?_, cos_e0_e0, cos_e0_e1⟩
  · unfold fetch_documents
    have h : passes_sql_filter (build_search_query none) doc_short = false := by decide
    simp [List.filter_cons, h]
  · unfold search
    rw [ranked_pair]
    unfold py_slice
    rw [if_pos (by norm_num)]
    rfl

/-- C5 amended: the candidate set fetched and scored by `search` is exactly
the stored documents that match the (mapped) category filter, have text of
SQL-trimmed length strictly greater than 20, and carry a 384-dimensional
embedding — with no cap on candidate-set size; and among candidates of one
common category (whose cleaned text passes the 20-character result check),
with `top_k = 1` and `min_score` not above the best similarity, the
strictly best-matching document is the one returned, no matter where it sits
in the store. -/
theorem C5_full_scan :
    (∀ (docs : List Document) (sf : Option String) (d : Document),
        d ∈ fetch_documents docs sf ↔
          d ∈ docs ∧ passes_sql_filter (build_search_query sf) d = true) ∧
    (∀ (docs : List Document) (ct : String → String) (qv : List ℝ) (ms : ℝ)
        (sf : Option String) (d : Document),
        d ∈ fetch_documents docs sf →
        (∀ d' ∈ fetch_documents docs sf, d'.category = d.category) →
        (∀ d' ∈ fetch_documents docs sf, d' ≠ d →
          cosine_similarity qv d'.embedding < cosine_similarity qv d.embedding) →
        ¬(cosine_similarity qv d.embedding < ms) →
        20 ≤ (py_strip (if d.text = "" then "" else ct d.text)).length →
        search docs ct qv 1 ms sf = [make_result ct qv d]) := by
  constructor
  · exact mem_fetch_documents
  · intro docs ct qv ms sf d hd hcat hbest hms hclean
    have h384 : d.embedding.length = 384 :=
      embedding_length_of_passes _ _ ((mem_fetch_documents docs sf d).mp hd).2
    have hproc : process_candidate ct qv ms d = some (make_result ct qv d) :=
      (process_candidate_some_iff _ _ _ _ _).mpr ⟨h384, hms, hclean, rfl⟩
    have hmem : make_result ct qv d ∈ scored_results ct qv ms docs sf :=
      (mem_scored_results _ _ _ _ _ _).mpr ⟨d, hd, hproc⟩
    have hperm : List.Perm (sort_results (scored_results ct qv ms docs sf))
        (scored_results ct qv ms docs sf) := List.perm_insertionSort res_le _
    have hsorted : List.Sorted res_le (sort_results (scored_results ct qv ms docs sf)) := by
      unfold sort_results
      exact List.sorted_insertionSort res_le _
    have hmem' : make_result ct qv d ∈ sort_results (scored_results ct qv ms docs sf) :=
      hperm.mem_iff.mpr hmem
    obtain ⟨r0, rest, hcons⟩ :
        ∃ r0 rest, sort_results (scored_results ct qv ms docs sf) = r0 :: rest := by
      cases hse : sort_results (scored_results ct qv ms docs sf) with
      | nil =>
          rw [hse] at hmem'
          exact absurd hmem' (List.not_mem_nil _)
      | cons a l => exact ⟨a, l, rfl⟩
    have hr0L : r0 ∈ scored_results ct qv ms docs sf :=
      hperm.mem_iff.mp (hcons ▸ List.mem_cons_self r0 rest)
    obtain ⟨d', hd', hproc'⟩ := (mem_scored_results _ _ _ _ _ _).mp hr0L
    obtain ⟨h384', hms', hclean', hr0eq⟩ := (process_candidate_some_iff _ _ _ _ _).mp hproc'
    have hcat' : d'.category = d.category := hcat d' hd'
    have hprio : calculate_category_priority (make_result ct qv d').category =
        calculate_category_priority (make_result ct qv d).category := by
      show calculate_category_priority (if d'.category = "" then "other" else d'.category) =
        calculate_category_priority (if d.category = "" then "other" else d.category)
      rw [hcat']
    have hd'd : d' = d := by
      by_contra hne
      have hlt : cosine_similarity qv d'.embedding < cosine_similarity qv d.embedding :=
        hbest d' hd' hne
      have hsplit : make_result ct qv d = r0 ∨ make_result ct qv d ∈ rest := by
        rw [hcons] at hmem'
        exact List.mem_cons.mp hmem'
      rcases hsplit with heq | hrest
      · have hsceq : cosine_similarity qv d.embedding = cosine_similarity qv d'.embedding :=
          calc cosine_similarity qv d.embedding = (make_result ct qv d).score := rfl
            _ = r0.score := by rw [heq]
            _ = (make_result ct qv d').score := by rw [hr0eq]
            _ = cosine_similarity qv d'.embedding := rfl
        rw [hsceq] at hlt
        exact lt_irrefl _ hlt
      · have hrel : res_le r0 (make_result ct qv d) := by
          rw [hcons] at hsorted
          exact List.rel_of_sorted_cons hsorted _ hrest
        rcases hrel with hlt' | ⟨-, hle'⟩
        · rw [hr0eq, hprio] at hlt'
          exact lt_irrefl _ hlt'
        · have hle'' : cosine_similarity qv d.embedding ≤ cosine_similarity qv d'.embedding := by
            have h' := hle'
            rw [hr0eq] at h'
            exact h'
          exact absurd hlt (not_lt.mpr hle'')
    rw [hd'd] at hr0eq
    show py_slice 1 (sort_results (scored_results ct qv ms docs sf)) = [make_result ct qv d]
    rw [hcons]
    unfold py_slice
    rw [if_pos (by norm_num)]
    show (r0 :: rest).take (1 : ℤ).toNat = [make_result ct qv d]
    rw [show ((1 : ℤ).toNat) = 1 from rfl, List.take_succ_cons, List.take_zero, hr0eq]

/-- Witness for C5: a two-document same-category corpus where the better
match sits at the later store position and is returned with `top_k = 1`. -/
theorem C5_full_scan_witness :
    search [doc_quran, doc_quran_b] (fun s => s) e0 1 (-1 : ℝ) none =
      [make_result (fun s => s) e0 doc_quran_b] := by
  refine C5_full_scan.2 [doc_quran, doc_quran_b] (fun s => s) e0 (-1) none doc_quran_b
    ?_ ?_ ?_ ?_ ?_
  · exact (mem_fetch_documents _ _ _).mpr
      ⟨List.mem_cons_of_mem _ (List.mem_cons_self _ _), by decide⟩
  · intro d' hd'
    have hmem : d' ∈ [doc_quran, doc_quran_b] := ((mem_fetch_documents _ _ _).mp hd').1
    rcases List.mem_cons.mp hmem with h | h
    · rw [h]
      rfl
    · rw [List.mem_singleton.mp h]
  · intro d' hd' hne
    have hmem : d' ∈ [doc_quran, doc_quran_b] := ((mem_fetch_documents _ _ _).mp hd').1
    rcases List.mem_cons.mp hmem with h | h
    · rw [h]
      show cosine_similarity e0 e1 < cosine_similarity e0 e0
      rw [cos_e0_e1, cos_e0_e0]
      norm_num
    · exact absurd (List.mem_singleton.mp h) hne
  · show ¬(cosine_similarity e0 e0 < -1)
    rw [cos_e0_e0]
    norm_num
  · decide

/-! ## Claim C9 -/

/-- C9 counterexample: a non-positive `top_k` is not rejected — there is no
`ValidationError` anywhere in the code — and the engine runs in full.  With
`top_k = -1` the search returns a non-empty result list (Python slice
semantics drop the last element), and with `top_k = 0` it returns `[]`,
indistinguishable from a legitimate empty search. -/
theorem C9_counterexample :
    search [doc_quran, doc_other] (fun s => s) e0 (-1 : ℤ) (-1 : ℝ) none = [res_quran] ∧
    search [doc_quran, doc_other] (fun s => s) e0 0 (-1 : ℝ) none = [] := by
  constructor
  · unfold search
    rw [ranked_pair]
    unfold py_slice
    rw [if_neg (by norm_num)]
    rfl
  · unfold search
    rw [ranked_pair]
    unfold py_slice
    rw [if_pos le_rfl]
    rfl

/-- C9 amended: a non-positive `top_k` is never validated or rejected; the
whole pipeline (fetch, score, sort) runs and Python's slice semantics govern
the truncation: `top_k = 0` yields `[]`, and `top_k < 0` yields the ranked
list minus its last `|top_k|` entries. -/
theorem C9_nonpositive_topk_runs (docs : List Document) (ct : String → String)
    (qv : List ℝ) (ms : ℝ) (sf : Option String) (k : ℤ) (hk : k ≤ 0) :
    (k = 0 → search docs ct qv k ms sf = []) ∧
    (k < 0 →
      search docs ct qv k ms sf =
        (sort_results (scored_results ct qv ms docs sf)).take
          ((sort_results (scored_results ct qv ms docs sf)).length - (-k).toNat) ∧
      (search docs ct qv k ms sf).length =
        (sort_results (scored_results ct qv ms docs sf)).length - (-k).toNat) := by
  constructor
  · intro h0
    subst h0
    unfold search py_slice
    rw [if_pos le_rfl]
    simp
  · intro hneg
    constructor
    · unfold search py_slice
      rw [if_neg (by omega)]
    · unfold search py_slice
      rw [if_neg (by omega), List.length_take]
      exact min_eq_left (Nat.sub_le _ _)

/-- Witness for C9: the negative-`top_k` clause at `top_k = -1` on the empty
corpus. -/
theorem C9_nonpositive_topk_runs_witness :
    search [] (fun s => s) [] (-1 : ℤ) (0 : ℝ) none =
      (sort_results (scored_results (fun s => s) [] 0 [] none)).take
        ((sort_results (scored_results (fun s => s) [] 0 [] none)).length -
          ((-(-1 : ℤ)).toNat)) ∧
    (search [] (fun s => s) [] (-1 : ℤ) (0 : ℝ) none).length =
      (sort_results (scored_results (fun s => s) [] 0 [] none)).length -
        ((-(-1 : ℤ)).toNat) :=
  (C9_nonpositive_topk_runs [] (fun s => s) [] 0 none (-1) (by norm_num)).2 (by norm_num)

end HalalBot
